import Mathlib

/-
Verification of the Span Transform & Delivery subsystem of the
`opentelemetry-exporter-zipkin-web` package
(src/packages/opentelemetry-exporter-zipkin-web/src/zipkin.ts).

The exporter class `ZipkinExporter` is embedded shallowly: its readonly
fields become a Lean structure, its constructor and methods become pure
functions, and the observable effects of a call (log messages, transport
submissions, result-callback invocations, escaped exceptions) are collected
in an explicit effect record.  The behaviour of the external transport
(axios) on the single HTTP POST a call can make is supplied as a parameter
of type `TransportOutcome`.
-/

namespace ZipkinWeb

/-- Status code of an internal span: {OK, ERROR, UNSET} (spec section 3). -/
inductive CanonicalCode
  | OK
  | ERROR
  | UNSET
  deriving DecidableEq, Repr

/-- Status of an internal span: a code plus an optional description. -/
structure SpanStatus where
  code : CanonicalCode
  description : Option String
  deriving DecidableEq, Repr

/-- Kind of an internal span (spec section 3). -/
inductive SpanKind
  | INTERNAL
  | SERVER
  | CLIENT
  | PRODUCER
  | CONSUMER
  deriving DecidableEq, Repr

/-- Timed event attached to an internal span: (name, timestamp, attributes).
Timestamps are epoch microseconds. -/
structure TimedEvent where
  name : String
  time : Nat
  attributes : List (String × String)
  deriving DecidableEq, Repr

/-- Internal span, the input data model owned by the tracing SDK
(`ReadableSpan` of the tracing package; shape follows spec section 3).
Times are epoch microseconds; attribute values are modelled as strings. -/
structure ReadableSpan where
  traceId : String
  spanId : String
  parentSpanId : Option String
  name : String
  kind : SpanKind
  startTime : Nat
  endTime : Nat
  attributes : List (String × String)
  events : List TimedEvent
  status : SpanStatus
  deriving DecidableEq, Repr

/-- Restricted kind set of the wire format (INTERNAL has no equivalent). -/
inductive ZipkinSpanKind
  | SERVER
  | CLIENT
  | PRODUCER
  | CONSUMER
  deriving DecidableEq, Repr

/-- Local endpoint of a wire span; carries the exporter's service name. -/
structure Endpoint where
  serviceName : String
  deriving DecidableEq, Repr

/-- Wire annotation derived from one span event: a timestamp in
microseconds and a value string. -/
structure ZipkinAnnot where
  timestamp : Nat
  value : String
  deriving DecidableEq, Repr

/-- Wire span, the output data model owned by the remote collector
(spec section 3). -/
structure ZipkinSpan where
  traceId : String
  id : String
  parentId : Option String
  name : String
  kind : Option ZipkinSpanKind
  timestamp : Nat
  duration : Nat
  localEndpoint : Endpoint
  tags : List (String × String)
  annotations : List ZipkinAnnot
  deriving DecidableEq, Repr

/-- Modelled from the spec: the default status-code tag key.  The constant
is exported by the transform module (`src/transform.ts`), which is not part
of the provided sources; the spec fixes only that it is a fixed tag key. -/
def statusCodeTagName : String := "ot.status_code"

/-- Modelled from the spec: the default status-description tag key, also
exported by the missing transform module. -/
def statusDescriptionTagName : String := "ot.status_description"

/-- Fixed kind-mapping table (spec section 3/4.1): INTERNAL maps to an
absent wire kind, the remaining kinds map to their wire counterparts. -/
def toZipkinKind : SpanKind → Option ZipkinSpanKind
  | SpanKind.INTERNAL => none
  | SpanKind.SERVER => some ZipkinSpanKind.SERVER
  | SpanKind.CLIENT => some ZipkinSpanKind.CLIENT
  | SpanKind.PRODUCER => some ZipkinSpanKind.PRODUCER
  | SpanKind.CONSUMER => some ZipkinSpanKind.CONSUMER

/-- Symbolic wire encoding of a status code (spec section 8 example shows
the tag value "OK" for code OK). -/
def statusCodeValue : CanonicalCode → String
  | CanonicalCode.OK => "OK"
  | CanonicalCode.ERROR => "ERROR"
  | CanonicalCode.UNSET => "UNSET"

/-- Modelled from the spec: the span transformer `toZipkinSpan` of
`src/transform.ts`, which is not part of the provided sources.  Spec
sections 3, 4.1 and 8: identifiers are copied losslessly, `timestamp` is
the start time in microseconds, `duration = endTime - startTime` (clamped
non-negative), `localEndpoint.serviceName` is the configured service name,
the kind goes through the fixed table, tags are the attributes plus a
status-code tag under `statusCodeTagKey` and a description tag under
`statusDescriptionTagKey` present iff the status carries a non-empty
description, and each event becomes one annotation whose value is the
event name. -/
def toZipkinSpan (span : ReadableSpan) (serviceName : String)
    (statusCodeTagKey : String) (statusDescriptionTagKey : String) : ZipkinSpan :=
  { traceId := span.traceId
    id := span.spanId
    parentId := span.parentSpanId
    name := span.name
    kind := toZipkinKind span.kind
    timestamp := span.startTime
    duration := span.endTime - span.startTime
    localEndpoint := { serviceName := serviceName }
    tags := span.attributes
      ++ [(statusCodeTagKey, statusCodeValue span.status.code)]
      ++ (match span.status.description with
          | some d => if d = "" then [] else [(statusDescriptionTagKey, d)]
          | none => [])
    annotations := span.events.map (fun ev => { timestamp := ev.time, value := ev.name }) }

/-- Export result delivered to the result callback (`ExportResult` of the
base package, not part of the provided sources; spec speaks of a
SUCCESS/FAILURE indicator). -/
inductive ExportResult
  | SUCCESS
  | FAILURE
  deriving DecidableEq, Repr

/-- Diagnostic level of a logger call. -/
inductive LogLevel
  | debug
  | error
  deriving DecidableEq, Repr

/-- One logger invocation: level and message. -/
structure LogMsg where
  level : LogLevel
  msg : String
  deriving DecidableEq, Repr

/-- Behaviour of the external transport (axios) on the single POST an
export call can make: the promise either resolves or rejects with an
error message. -/
inductive TransportOutcome
  | ok
  | err (e : String)
  deriving DecidableEq, Repr

/-- Injected logger capability; only its identity is tracked (log calls
are recorded in the effect trace). -/
inductive Logger
  | noop
  | custom (id : Nat)
  deriving DecidableEq, Repr

/-- Observable effects of one `export`/`shutdown` call: logger calls,
transport submissions (URL and batch), invocations of the caller's result
callback, and any exception that escapes to the caller. -/
structure SendEffects where
  logs : List LogMsg
  posts : List (String × List ZipkinSpan)
  callbackResults : List ExportResult
  thrown : Option String
  deriving DecidableEq, Repr

/-- Constructor configuration (`zipkinTypes.ExporterConfig`).  `none`
models an absent (undefined) option. -/
structure ExporterConfig where
  url : Option String
  serviceName : String
  statusCodeTagName : Option String
  statusDescriptionTagName : Option String
  forceFlush : Option Bool
  logger : Option Logger
  deriving DecidableEq, Repr

/-- JavaScript `a || b` where `a` is an optional string option: the default
is taken when the option is absent or falsy (the empty string). -/
def jsOrString : Option String → String → String
  | none, d => d
  | some s, d => if s = "" then d else s

/-- JavaScript `a || b` where `a` is an optional boolean option: the
default is taken when the option is absent or `false`. -/
def jsOrBool : Option Bool → Bool → Bool
  | none, d => d
  | some b, d => if b then b else d

/-- The exporter's readonly fields (class `ZipkinExporter`). -/
structure ZipkinExporter where
  forceFlushF : Bool
  loggerF : Logger
  serviceNameF : String
  statusCodeTagNameF : String
  statusDescriptionTagNameF : String
  urlStrF : String
  deriving DecidableEq, Repr

/-- Default collector endpoint (`ZipkinExporter.DEFAULT_URL`). -/
def ZipkinExporter.DEFAULT_URL : String := "http://localhost:9411/api/v2/spans"

/-- Embedding of the `ZipkinExporter` constructor: each field is captured
with the source's JavaScript `||` defaulting (`config.url ||
ZipkinExporter.DEFAULT_URL`, `config.forceFlush || true`, `config.logger
|| new NoopLogger()`, and the two tag-key names defaulting to the
transform module's constants). -/
def ZipkinExporter.create (config : ExporterConfig) : ZipkinExporter :=
  { urlStrF := jsOrString config.url ZipkinExporter.DEFAULT_URL
    forceFlushF := jsOrBool config.forceFlush true
    loggerF := config.logger.getD Logger.noop
    serviceNameF := config.serviceName
    statusCodeTagNameF := jsOrString config.statusCodeTagName statusCodeTagName
    statusDescriptionTagNameF := jsOrString config.statusDescriptionTagName statusDescriptionTagName }

/-- Embedding of the private method `_toZipkinSpan`: applies the
transformer with the instance's captured configuration. -/
def ZipkinExporter.toZipkin (e : ZipkinExporter) (span : ReadableSpan) : ZipkinSpan :=
  toZipkinSpan span e.serviceNameF e.statusCodeTagNameF e.statusDescriptionTagNameF

/-- Embedding of the private async method `_send`.  Empty batch: logs the
debug notice and invokes `done` with SUCCESS.  Non-empty batch: performs
one `axios.post(this._urlStr, zipkinSpans)`; a rejected promise is caught
and logged at error level; `done` is not invoked on this path and nothing
is thrown to the caller. -/
def ZipkinExporter.send (e : ZipkinExporter) (zipkinSpans : List ZipkinSpan)
    (t : TransportOutcome) : SendEffects :=
  if zipkinSpans.length = 0 then
    { logs := [{ level := LogLevel.debug, msg := "Zipkin send with empty spans" }]
      posts := []
      callbackResults := [ExportResult.SUCCESS]
      thrown := none }
  else
    { logs := match t with
        | TransportOutcome.ok => []
        | TransportOutcome.err _ =>
            [{ level := LogLevel.error, msg := "axios.post threw error " ++ e.urlStrF }]
      posts := [(e.urlStrF, zipkinSpans)]
      callbackResults := []
      thrown := none }

/-- Result of one `export`/`_sendSpans` call with explicit state passing:
the caller's span list and the exporter instance as the call leaves them,
the wire batch as built by the `map`, and the observable effects. -/
structure ExportOutcome where
  spansAfter : List ReadableSpan
  exporterAfter : ZipkinExporter
  builtBatch : List ZipkinSpan
  eff : SendEffects
  deriving DecidableEq, Repr

/-- Embedding of the private method `_sendSpans`: maps `_toZipkinSpan`
over the spans and calls `_send` with a wrapper callback that forwards the
result to `done` only when `done` was supplied (`hasDone`).  The source
never writes to `spans`, the exporter's fields or the built batch, so the
explicit state comes back unchanged. -/
def ZipkinExporter.sendSpans (e : ZipkinExporter) (spans : List ReadableSpan)
    (hasDone : Bool) (t : TransportOutcome) : ExportOutcome :=
  let zipkinSpans := spans.map (fun span => e.toZipkin span)
  let eff := e.send zipkinSpans t
  { spansAfter := spans
    exporterAfter := e
    builtBatch := zipkinSpans
    eff := { eff with callbackResults := if hasDone then eff.callbackResults else [] } }

/-- Embedding of the public method `export` (named `exportSpans` because
`export` is a Lean keyword): delegates to `_sendSpans` with the result
callback supplied. -/
def ZipkinExporter.exportSpans (e : ZipkinExporter) (spans : List ReadableSpan)
    (t : TransportOutcome) : ExportOutcome :=
  e.sendSpans spans true t

/-- Embedding of the public method `shutdown`: when the force-flush flag
is set, makes one optimistic `_sendSpans([])` call (no callback supplied).
The first component records the batches passed to `_sendSpans`, so the
number of export calls shutdown performs is observable. -/
def ZipkinExporter.shutdown (e : ZipkinExporter) (t : TransportOutcome) :
    List (List ReadableSpan) × Option ExportOutcome :=
  if e.forceFlushF then
    ([([] : List ReadableSpan)], some (e.sendSpans [] false t))
  else
    ([], none)

/-- Configuration used for concrete evaluations: the example of spec
section 8 (`serviceName: "my-service"`), all optional fields absent. -/
def exampleConfig : ExporterConfig :=
  { url := none
    serviceName := "my-service"
    statusCodeTagName := none
    statusDescriptionTagName := none
    forceFlush := none
    logger := none }

/-- Concrete internal span from the example of spec section 8. -/
def exampleSpan : ReadableSpan :=
  { traceId := "abc123"
    spanId := "def456"
    parentSpanId := none
    name := "doWork"
    kind := SpanKind.INTERNAL
    startTime := 1000000
    endTime := 1005000
    attributes := [("key", "value")]
    events := []
    status := { code := CanonicalCode.OK, description := none } }

/-- A second concrete span, a child of `exampleSpan`. -/
def exampleSpan2 : ReadableSpan :=
  { traceId := "abc123"
    spanId := "0123ab"
    parentSpanId := some "def456"
    name := "doWork"
    kind := SpanKind.CLIENT
    startTime := 1001000
    endTime := 1002000
    attributes := []
    events := [{ name := "invoking doWork", time := 1001500, attributes := [] }]
    status := { code := CanonicalCode.ERROR, description := some "boom" } }

/-- Exporter state with the force-flush flag cleared (not reachable
through the constructor, whose `|| true` keeps the flag set). -/
def exporterNoFlush : ZipkinExporter :=
  { forceFlushF := false
    loggerF := Logger.noop
    serviceNameF := "my-service"
    statusCodeTagNameF := statusCodeTagName
    statusDescriptionTagNameF := statusDescriptionTagName
    urlStrF := ZipkinExporter.DEFAULT_URL }

/-- C1: the claim says the result callback is invoked exactly once per
`export` call with a SUCCESS/FAILURE indicator, never left uninvoked.  The
code drops the callback on the non-empty path (`_send` posts the batch
without ever calling `done`): evaluated at a one-span batch, the callback
is invoked zero times whether the transport resolves or rejects. -/
theorem export_nonempty_callback_never_invoked :
    ((ZipkinExporter.create exampleConfig).exportSpans [exampleSpan]
        TransportOutcome.ok).eff.callbackResults = []
    ∧ ((ZipkinExporter.create exampleConfig).exportSpans [exampleSpan]
        (TransportOutcome.err "ECONNREFUSED")).eff.callbackResults = [] :=
  ⟨rfl, rfl⟩

/-- C2: on a transport failure the error is caught and logged at error
level, nothing is thrown to the caller and exactly one submission was made
(no retry) — but the result callback is never invoked with FAILURE, against
the claim's final conjunct. -/
theorem export_failure_swallowed_no_failure_callback :
    ((ZipkinExporter.create exampleConfig).exportSpans [exampleSpan]
        (TransportOutcome.err "Network Error")).eff.thrown = none
    ∧ ((ZipkinExporter.create exampleConfig).exportSpans [exampleSpan]
        (TransportOutcome.err "Network Error")).eff.posts.length = 1
    ∧ ((ZipkinExporter.create exampleConfig).exportSpans [exampleSpan]
        (TransportOutcome.err "Network Error")).eff.logs
        = [{ level := LogLevel.error,
             msg := "axios.post threw error " ++ ZipkinExporter.DEFAULT_URL }]
    ∧ ((ZipkinExporter.create exampleConfig).exportSpans [exampleSpan]
        (TransportOutcome.err "Network Error")).eff.callbackResults = [] :=
  ⟨rfl, rfl, rfl, rfl⟩

/-- C3: exporting an empty span sequence invokes the result callback once
with SUCCESS, performs no transport submission, and logs the debug-level
notice, for every exporter state and transport behaviour. -/
theorem export_empty_success (e : ZipkinExporter) (t : TransportOutcome) :
    (e.exportSpans [] t).eff.callbackResults = [ExportResult.SUCCESS]
    ∧ (e.exportSpans [] t).eff.posts = []
    ∧ (e.exportSpans [] t).eff.logs
        = [{ level := LogLevel.debug, msg := "Zipkin send with empty spans" }] :=
  ⟨rfl, rfl, rfl⟩

/-- C4: the claim says the captured force-flush flag equals a supplied
`forceFlush` boolean, in particular `false` when `forceFlush: false` is
supplied.  The constructor's `config.forceFlush || true` evaluates to
`true` for every supplied value: with `forceFlush: false` the captured
flag is `true`, refuting the claim. -/
theorem forceFlush_false_captured_as_true :
    (ZipkinExporter.create
        { exampleConfig with forceFlush := some false }).forceFlushF = true :=
  rfl

/-- C5: when the force-flush flag is set, `shutdown` performs exactly one
`_sendSpans` call with an empty batch; when it is cleared, `shutdown`
performs no export call at all. -/
theorem shutdown_flush_iff (e : ZipkinExporter) (t : TransportOutcome) :
    (e.forceFlushF = true → (e.shutdown t).1 = [[]])
    ∧ (e.forceFlushF = false → (e.shutdown t).1 = []) := by
  constructor <;> intro h <;> simp [ZipkinExporter.shutdown, h]

/-- Witness for C5 at a force-flushing exporter and at one with the flag
cleared. -/
theorem shutdown_flush_iff_witness :
    ((ZipkinExporter.create exampleConfig).shutdown TransportOutcome.ok).1 = [[]]
    ∧ (exporterNoFlush.shutdown TransportOutcome.ok).1 = [] :=
  ⟨(shutdown_flush_iff (ZipkinExporter.create exampleConfig) TransportOutcome.ok).1 rfl,
   (shutdown_flush_iff exporterNoFlush TransportOutcome.ok).2 rfl⟩

/-- C6: a non-empty export call issues exactly one transport submission,
and that submission carries the whole transformed batch of this call; the
submission list is a function of this call's spans alone, so nothing is
combined or carried over across calls. -/
theorem export_single_submission (e : ZipkinExporter) (spans : List ReadableSpan)
    (t : TransportOutcome) (h : spans ≠ []) :
    (e.exportSpans spans t).eff.posts
      = [(e.urlStrF, spans.map (fun s => e.toZipkin s))] := by
  cases spans with
  | nil => exact absurd rfl h
  | cons a l => rfl

/-- Witness for C6 at a concrete one-span batch. -/
theorem export_single_submission_witness :
    ((ZipkinExporter.create exampleConfig).exportSpans [exampleSpan]
        TransportOutcome.ok).eff.posts
      = [((ZipkinExporter.create exampleConfig).urlStrF,
          [exampleSpan].map (fun s => (ZipkinExporter.create exampleConfig).toZipkin s))] :=
  export_single_submission (ZipkinExporter.create exampleConfig) [exampleSpan]
    TransportOutcome.ok (List.cons_ne_nil exampleSpan [])

/-- C7: the batch handed to the transport is the built batch, it has
exactly as many entries as the input span sequence, and entry `i` is the
transform of span `i` under the exporter's configuration — elementwise and
order-preserving. -/
theorem export_batch_elementwise (e : ZipkinExporter) (spans : List ReadableSpan)
    (t : TransportOutcome) (h : spans ≠ []) :
    (e.exportSpans spans t).eff.posts
        = [(e.urlStrF, (e.exportSpans spans t).builtBatch)]
    ∧ (e.exportSpans spans t).builtBatch.length = spans.length
    ∧ ∀ (i : Nat) (hi : i < spans.length)
        (hb : i < (e.exportSpans spans t).builtBatch.length),
        (e.exportSpans spans t).builtBatch.get ⟨i, hb⟩
          = e.toZipkin (spans.get ⟨i, hi⟩) := by
  refine ⟨?_, ?_, ?_⟩
  · cases spans with
    | nil => exact absurd rfl h
    | cons a l => rfl
  · simp [ZipkinExporter.exportSpans, ZipkinExporter.sendSpans]
  · intro i hi hb
    simp [ZipkinExporter.exportSpans, ZipkinExporter.sendSpans]

/-- Witness for C7: in a two-span batch, entry 1 is the transform of the
second span. -/
theorem export_batch_elementwise_witness :
    ((ZipkinExporter.create exampleConfig).exportSpans [exampleSpan, exampleSpan2]
        TransportOutcome.ok).builtBatch.get ⟨1, by decide⟩
      = (ZipkinExporter.create exampleConfig).toZipkin exampleSpan2 :=
  (export_batch_elementwise (ZipkinExporter.create exampleConfig)
      [exampleSpan, exampleSpan2] TransportOutcome.ok
      (List.cons_ne_nil exampleSpan [exampleSpan2])).2.2 1 (by decide) (by decide)

/-- C8: the span-to-wire transformation is deterministic — two
transformations of the identical span under the identical configuration
(serviceName and the two status tag keys) yield identical wire records. -/
theorem toZipkinSpan_deterministic (s1 s2 : ReadableSpan) (n1 n2 c1 c2 d1 d2 : String)
    (hs : s1 = s2) (hn : n1 = n2) (hc : c1 = c2) (hd : d1 = d2) :
    toZipkinSpan s1 n1 c1 d1 = toZipkinSpan s2 n2 c2 d2 := by
  subst hs; subst hn; subst hc; subst hd; rfl

/-- Witness for C8 at the concrete example span and default keys. -/
theorem toZipkinSpan_deterministic_witness :
    toZipkinSpan exampleSpan "my-service" statusCodeTagName statusDescriptionTagName
      = toZipkinSpan exampleSpan "my-service" statusCodeTagName statusDescriptionTagName :=
  toZipkinSpan_deterministic exampleSpan exampleSpan "my-service" "my-service"
    statusCodeTagName statusCodeTagName statusDescriptionTagName statusDescriptionTagName
    rfl rfl rfl rfl

/-- C9: an export call leaves the caller-supplied span list and the
exporter state unchanged, the batch is built fresh as the elementwise
transform of the input, and what reaches the transport is exactly the
batch as built (nothing modifies it afterwards). -/
theorem export_frame (e : ZipkinExporter) (spans : List ReadableSpan)
    (t : TransportOutcome) :
    (e.exportSpans spans t).spansAfter = spans
    ∧ (e.exportSpans spans t).exporterAfter = e
    ∧ (e.exportSpans spans t).builtBatch = spans.map (fun s => e.toZipkin s)
    ∧ ((e.exportSpans spans t).eff.posts = []
        ∨ (e.exportSpans spans t).eff.posts
            = [(e.urlStrF, (e.exportSpans spans t).builtBatch)]) := by
  refine ⟨rfl, rfl, rfl, ?_⟩
  cases spans with
  | nil => exact Or.inl rfl
  | cons a l => exact Or.inr rfl

/-- C10: supplying `url`, `statusCodeTagName` or `statusDescriptionTagName`
as the empty string yields exactly the exporter obtained by omitting the
option: each empty-string option is silently replaced by its default
(the default collector URL, the fixed default tag keys). -/
theorem empty_string_options_default (cfg : ExporterConfig) :
    ZipkinExporter.create
        { cfg with url := some "", statusCodeTagName := some "",
                   statusDescriptionTagName := some "" }
      = ZipkinExporter.create
          { cfg with url := none, statusCodeTagName := none,
                     statusDescriptionTagName := none }
    ∧ (ZipkinExporter.create { cfg with url := some "" }).urlStrF
        = ZipkinExporter.DEFAULT_URL
    ∧ (ZipkinExporter.create
          { cfg with statusCodeTagName := some "" }).statusCodeTagNameF
        = statusCodeTagName
    ∧ (ZipkinExporter.create
          { cfg with statusDescriptionTagName := some "" }).statusDescriptionTagNameF
        = statusDescriptionTagName :=
  ⟨rfl, rfl, rfl, rfl⟩

end ZipkinWeb
